import Mathlib

/-!
Verification of the ParkSpot client-side data layer.

Shallow embedding of the core logic of the ParkingSpotApp repository:
the Haversine distance helper, the search/filter/sort pipeline of the
Search screen, the listings CRUD wrappers and their context provider,
the location context, and the authentication service and context.

Conventions of the embedding:
  - JS numbers are modelled as exact rationals where the code only
    compares and copies them (prices, timestamps, coordinates as stored),
    and as real numbers where the code computes with transcendental
    functions (the Haversine distance).  Dates are modelled as rational
    timestamps.
  - Fields that can be absent (TypeScript optional fields, nullable
    values) are modelled with Option.
  - Asynchronous remote calls are modelled by explicit outcome
    parameters (a Bool or an Except value standing for the resolution of
    the corresponding promise); a thrown JS error is an Except.error.
  - JS Array.prototype.sort with a comparator c is modelled by the
    stable List.mergeSort with the relation (fun a b => c a b <= 0);
    for the comparators used here this relation is a total preorder, so
    the stable sorted result is uniquely determined and agrees with any
    stable sort the engine uses.  A comparator result of NaN is treated
    as 0 by the JS spec; the EReal key order used below matches that.
-/

namespace ParkSpot

/-! ### Data model, from the type definitions module -/

/-- Location interface: coordinates plus optional resolved address fields. -/
structure Location where
  latitude : ℚ
  longitude : ℚ
  address : Option String := none
  city : Option String := none
  state : Option String := none
  zipCode : Option String := none
deriving DecidableEq, Repr

/-- One day entry of an availability schedule.  The source field name for
the end of the window is a reserved word in Lean, so it is called
`stop` here. -/
structure DayWindow where
  start : String
  stop : String
  available : Bool
deriving DecidableEq, Repr

/-- AvailabilitySchedule interface. -/
structure AvailabilitySchedule where
  monday : DayWindow
  tuesday : DayWindow
  wednesday : DayWindow
  thursday : DayWindow
  friday : DayWindow
  saturday : DayWindow
  sunday : DayWindow
deriving DecidableEq, Repr

/-- ParkingSpot interface.  The spot type and amenity enums are string
valued in the source (their runtime values are the lowercase tag
strings), and the Search screen compares them against plain strings such
as "all", so they are modelled as strings. -/
structure ParkingSpot where
  id : String
  ownerId : String
  ownerName : String
  title : String
  description : String
  location : Location
  pricePerHour : ℚ
  pricePerDay : Option ℚ := none
  imageURLs : List String
  isAvailable : Bool
  availabilitySchedule : Option AvailabilitySchedule := none
  spotType : String
  amenities : List String
  rating : Option ℚ := none
  reviewCount : Option ℕ := none
  createdAt : ℚ
  updatedAt : ℚ
deriving DecidableEq, Repr

/-- User interface (the identity record stored in the users collection). -/
structure UserRec where
  uid : String
  email : String
  name : String
  role : String
  photoURL : Option String := none
  phone : Option String := none
  createdAt : ℚ
  updatedAt : ℚ
deriving DecidableEq, Repr

/-! ### GeoMath: the Haversine helper from the parking spots service -/

/-- Degree to radian conversion, from the private helper toRad. -/
noncomputable def toRad (deg : ℝ) : ℝ := deg * (Real.pi / 180)

/-- Model of Math.atan2 (two argument arctangent), by the standard case
analysis on the quadrant.  Signed zeros of floating point cannot be
distinguished here; the code below only ever calls it with nonnegative
arguments, where the distinction is irrelevant. -/
noncomputable def atan2 (y x : ℝ) : ℝ :=
  if 0 < x then Real.arctan (y / x)
  else if x < 0 then
    (if 0 ≤ y then Real.arctan (y / x) + Real.pi else Real.arctan (y / x) - Real.pi)
  else
    (if 0 < y then Real.pi / 2 else if y < 0 then -(Real.pi / 2) else 0)

/-- calculateDistance: great circle distance in kilometers between two
coordinates, by the Haversine formula with Earth radius 6371 km.
Mirrors the source line by line. -/
noncomputable def calculateDistance (lat1 lon1 lat2 lon2 : ℝ) : ℝ :=
  let R : ℝ := 6371
  let dLat := toRad (lat2 - lat1)
  let dLon := toRad (lon2 - lon1)
  let a := Real.sin (dLat / 2) * Real.sin (dLat / 2) +
    Real.cos (toRad lat1) * Real.cos (toRad lat2) *
    (Real.sin (dLon / 2) * Real.sin (dLon / 2))
  let c := 2 * atan2 (Real.sqrt a) (Real.sqrt (1 - a))
  R * c

/-! ### LocationContext: distance helper over the current session location -/

/-- calculateDistance of the location context: distance from the current
user location to a spot, or null when the user location is unknown. -/
noncomputable def contextCalcDistance (userLocation : Option Location) (spot : Location) :
    Option ℝ :=
  match userLocation with
  | none => none
  | some u =>
      some (calculateDistance (u.latitude : ℝ) (u.longitude : ℝ)
        (spot.latitude : ℝ) (spot.longitude : ℝ))

/-! ### String helpers modelling the JS string operations used by the
Search screen -/

/-- Whether the character list given second starts with the pattern
given first (String.startsWith on character lists). -/
def charsStartWith : List Char → List Char → Bool
  | [], _ => true
  | _ :: _, [] => false
  | p :: ps, t :: ts => p == t && charsStartWith ps ts

/-- Whether the pattern (second argument) occurs as a contiguous part of
the text (first argument); models JS String.prototype.includes. -/
def charsHave : List Char → List Char → Bool
  | [], p => p.isEmpty
  | t :: ts, p => charsStartWith p (t :: ts) || charsHave ts p

/-- s.includes(q) for strings. -/
def strIncludes (s q : String) : Bool := charsHave s.toList q.toList

/-- JS String.prototype.trim: drop leading and trailing whitespace. -/
def strTrim (s : String) : String :=
  String.mk (((s.toList.dropWhile Char.isWhitespace).reverse.dropWhile
    Char.isWhitespace).reverse)

/-! ### SearchScreen: the filter and sort pipeline computing filteredSpots -/

/-- The three sort keys offered by the Search screen. -/
inductive SortKey where
  | distance : SortKey
  | price : SortKey
  | rating : SortKey
deriving DecidableEq, Repr

/-- Stage 1: case insensitive substring match of the query against
title, description, address and city; skipped when the trimmed query is
empty (an empty string is falsy in JS). -/
def textFilter (searchQuery : String) (results : List ParkingSpot) : List ParkingSpot :=
  if strTrim searchQuery ≠ "" then
    let query := searchQuery.toLower
    results.filter (fun spot =>
      strIncludes spot.title.toLower query ||
      strIncludes spot.description.toLower query ||
      (match spot.location.address with
       | some s => strIncludes s.toLower query
       | none => false) ||
      (match spot.location.city with
       | some s => strIncludes s.toLower query
       | none => false))
  else results

/-- Stage 2: keep only spots with pricePerHour at most maxPrice. -/
def priceFilter (maxPrice : ℚ) (results : List ParkingSpot) : List ParkingSpot :=
  results.filter (fun spot => spot.pricePerHour ≤ maxPrice)

/-- Stage 3: when the user location is known, keep only spots whose
distance is non null and at most maxDistance; skipped entirely when the
user location is unknown. -/
noncomputable def distanceFilter (userLocation : Option Location) (maxDistance : ℚ)
    (results : List ParkingSpot) : List ParkingSpot :=
  match userLocation with
  | none => results
  | some _ =>
      results.filter (fun spot =>
        match contextCalcDistance userLocation spot.location with
        | some d => decide (d ≤ (maxDistance : ℝ))
        | none => false)

/-- Stage 4: when the selected spot types do not include the sentinel
"all", keep only spots whose type is selected. -/
def typeFilter (selectedSpotTypes : List String) (results : List ParkingSpot) :
    List ParkingSpot :=
  if ¬ (selectedSpotTypes.contains "all") then
    results.filter (fun spot => selectedSpotTypes.contains spot.spotType)
  else results

/-- The sort key the JS distance comparator effectively orders by:
calculateDistance(a.location) || Infinity.  A null distance (unknown
origin) is falsy and becomes Infinity, and so does a distance of exactly
0, since the number 0 is falsy in JS. -/
noncomputable def jsDistKey (userLocation : Option Location) (spot : ParkingSpot) : EReal :=
  match contextCalcDistance userLocation spot.location with
  | none => ⊤
  | some d => if d = 0 then ⊤ else (d : EReal)

/-- The comparator of the sort stage, as the relation
(fun a b => comparator a b <= 0).  For the distance key with unknown
origin the comparator returns 0 for every pair, which this relation
renders as always true. -/
noncomputable def sortLE (sortBy : SortKey) (userLocation : Option Location)
    (a b : ParkingSpot) : Bool :=
  match sortBy with
  | .price => decide (a.pricePerHour ≤ b.pricePerHour)
  | .rating => decide (b.rating.getD 0 ≤ a.rating.getD 0)
  | .distance =>
      match userLocation with
      | none => true
      | some _ => decide (jsDistKey userLocation a ≤ jsDistKey userLocation b)

/-- filteredSpots: the full pipeline of the Search screen, stages 1 to 4
followed by the stable sort. -/
noncomputable def filteredSpots (spots : List ParkingSpot) (searchQuery : String)
    (maxPrice maxDistance : ℚ) (selectedSpotTypes : List String) (sortBy : SortKey)
    (userLocation : Option Location) : List ParkingSpot :=
  (typeFilter selectedSpotTypes
    (distanceFilter userLocation maxDistance
      (priceFilter maxPrice
        (textFilter searchQuery spots)))).mergeSort (sortLE sortBy userLocation)

/-! ### Firestore parking spots service -/

/-- A stored parking spot document: the fields of a ParkingSpot minus
the id, which is the document key. -/
structure SpotDoc where
  ownerId : String
  ownerName : String
  title : String
  description : String
  location : Location
  pricePerHour : ℚ
  pricePerDay : Option ℚ := none
  imageURLs : List String
  isAvailable : Bool
  availabilitySchedule : Option AvailabilitySchedule := none
  spotType : String
  amenities : List String
  rating : Option ℚ := none
  reviewCount : Option ℕ := none
  createdAt : ℚ
  updatedAt : ℚ
deriving DecidableEq, Repr

/-- A raw Firestore snapshot document for a parking spot, before
conversion: the fields that convertDocToSpot defaults are optional. -/
structure DocData where
  ownerId : String
  ownerName : String
  title : String
  description : String
  location : Location
  pricePerHour : ℚ
  pricePerDay : Option ℚ := none
  imageURLs : Option (List String) := none
  isAvailable : Option Bool := none
  availabilitySchedule : Option AvailabilitySchedule := none
  spotType : String
  amenities : Option (List String) := none
  rating : Option ℚ := none
  reviewCount : Option ℕ := none
  createdAt : Option ℚ := none
  updatedAt : Option ℚ := none
deriving DecidableEq, Repr

/-- convertDocToSpot: converts a Firestore document to a ParkingSpot.
A missing imageURLs or amenities array becomes the empty list, a
missing isAvailable flag defaults to true, and missing timestamps
default to the current date (the now argument). -/
def convertDocToSpot (now : ℚ) (docId : String) (data : DocData) : ParkingSpot :=
  { id := docId
    ownerId := data.ownerId
    ownerName := data.ownerName
    title := data.title
    description := data.description
    location := data.location
    pricePerHour := data.pricePerHour
    pricePerDay := data.pricePerDay
    imageURLs := data.imageURLs.getD []
    isAvailable := data.isAvailable.getD true
    availabilitySchedule := data.availabilitySchedule
    spotType := data.spotType
    amenities := data.amenities.getD []
    rating := data.rating
    reviewCount := data.reviewCount
    createdAt := data.createdAt.getD now
    updatedAt := data.updatedAt.getD now }

/-- The view derivation performed by subscribeToSpots on each snapshot:
convert every document, keep only available spots, sort descending by
creation timestamp (the comparator b.createdAt - a.createdAt, rendered
as the relation of the stable sort). -/
def subscribeToSpots (now : ℚ) (docs : List (String × DocData)) : List ParkingSpot :=
  ((docs.map (fun kd => convertDocToSpot now kd.1 kd.2)).filter
    (fun spot => spot.isAvailable)).mergeSort
    (fun a b => decide (b.createdAt ≤ a.createdAt))

/-- A partial ParkingSpot update object (TypeScript Partial): every
field optional, present exactly when the update carries it. -/
structure SpotPatch where
  id : Option String := none
  ownerId : Option String := none
  ownerName : Option String := none
  title : Option String := none
  description : Option String := none
  location : Option Location := none
  pricePerHour : Option ℚ := none
  pricePerDay : Option (Option ℚ) := none
  imageURLs : Option (List String) := none
  isAvailable : Option Bool := none
  availabilitySchedule : Option (Option AvailabilitySchedule) := none
  spotType : Option String := none
  amenities : Option (List String) := none
  rating : Option (Option ℚ) := none
  reviewCount : Option (Option ℕ) := none
  createdAt : Option ℚ := none
  updatedAt : Option ℚ := none
deriving DecidableEq, Repr

/-- Firestore updateDoc field merge: every field present in the patch
overwrites the stored field, absent fields are untouched. -/
def applyPatch (d : SpotDoc) (p : SpotPatch) : SpotDoc :=
  { ownerId := p.ownerId.getD d.ownerId
    ownerName := p.ownerName.getD d.ownerName
    title := p.title.getD d.title
    description := p.description.getD d.description
    location := p.location.getD d.location
    pricePerHour := p.pricePerHour.getD d.pricePerHour
    pricePerDay := p.pricePerDay.getD d.pricePerDay
    imageURLs := p.imageURLs.getD d.imageURLs
    isAvailable := p.isAvailable.getD d.isAvailable
    availabilitySchedule := p.availabilitySchedule.getD d.availabilitySchedule
    spotType := p.spotType.getD d.spotType
    amenities := p.amenities.getD d.amenities
    rating := p.rating.getD d.rating
    reviewCount := p.reviewCount.getD d.reviewCount
    createdAt := p.createdAt.getD d.createdAt
    updatedAt := p.updatedAt.getD d.updatedAt }

/-- The payload updateParkingSpot sends to the backend: the caller
supplied partial data with id and createdAt destructured away, plus a
fresh server timestamp on updatedAt. -/
def updatePayload (serverNow : ℚ) (data : SpotPatch) : SpotPatch :=
  { data with id := none, createdAt := none, updatedAt := some serverNow }

/-- updateParkingSpot: strips id and createdAt from the partial data and
applies the remainder, plus a server updatedAt timestamp, to the stored
document with the given id. -/
def updateParkingSpot (serverNow : ℚ) (store : List (String × SpotDoc))
    (spotId : String) (data : SpotPatch) : List (String × SpotDoc) :=
  store.map (fun kd =>
    if kd.1 = spotId then (kd.1, applyPatch kd.2 (updatePayload serverNow data)) else kd)

/-- Document lookup in a keyed store (first entry with the key). -/
def findDoc (store : List (String × SpotDoc)) (spotId : String) : Option SpotDoc :=
  match store.find? (fun kd => kd.1 = spotId) with
  | some kd => some kd.2
  | none => none

/-! ### Remote backend state and the delete flow -/

/-- The gateway calls the spot CRUD flows can issue: a Firestore
document deletion and a Storage folder cleanup. -/
inductive Effect where
  | firestoreDelete : String → Effect
  | storageDelete : String → Effect
deriving DecidableEq, Repr

/-- Remote backend state: the parking spot documents and, per spot id,
the stored image files of that spot. -/
structure RemoteDB where
  spots : List (String × SpotDoc)
  images : List (String × List String)
deriving DecidableEq, Repr

/-- deleteParkingSpot: deletes the document; on a backend failure throws
a generic failure message. -/
def deleteParkingSpot (remoteOk : Bool) (db : RemoteDB) (spotId : String) :
    Except String RemoteDB :=
  if remoteOk then
    .ok { db with spots := db.spots.filter (fun kd => kd.1 ≠ spotId) }
  else .error "Failed to delete parking spot"

/-- deleteParkingSpotImages: best effort removal of every stored image
of the spot; a failure is logged and swallowed, never thrown.  The
returned trace records that the storage call was issued. -/
def deleteParkingSpotImages (storageOk : Bool) (db : RemoteDB) (spotId : String) :
    RemoteDB × List Effect :=
  if storageOk then
    ({ db with images := db.images.filter (fun kd => kd.1 ≠ spotId) },
      [Effect.storageDelete spotId])
  else (db, [Effect.storageDelete spotId])

/-- The local state held by the parking spots provider: the allAvailable
view, the mine view, and the last error message. -/
structure SpotsViews where
  spots : List ParkingSpot
  userSpots : List ParkingSpot
  error : Option String := none
deriving DecidableEq, Repr

/-- The outcome of one run of the deleteSpot context operation. -/
structure DeleteOutcome where
  views : SpotsViews
  db : RemoteDB
  trace : List Effect
  thrown : Option String
deriving DecidableEq, Repr

/-- deleteSpot of the parking spots context: await the backend delete,
then drop the id from both local views; on failure record the message
and rethrow.  The trace lists every gateway call the operation issues. -/
def deleteSpot (remoteOk : Bool) (views : SpotsViews) (db : RemoteDB)
    (spotId : String) : DeleteOutcome :=
  match deleteParkingSpot remoteOk db spotId with
  | .ok db2 =>
      { views :=
          { views with
            spots := views.spots.filter (fun s => s.id ≠ spotId)
            userSpots := views.userSpots.filter (fun s => s.id ≠ spotId) }
        db := db2
        trace := [Effect.firestoreDelete spotId]
        thrown := none }
  | .error e =>
      { views := { views with error := some e }
        db := db
        trace := [Effect.firestoreDelete spotId]
        thrown := some e }

/-- updateSpot of the parking spots context: await the backend update,
then apply the same partial merge (without stripping) and a fresh local
updatedAt to every occurrence of the id in both views. -/
def updateSpot (serverNow localNow : ℚ) (views : SpotsViews) (db : RemoteDB)
    (spotId : String) (data : SpotPatch) : SpotsViews × RemoteDB :=
  let db2 := { db with spots := updateParkingSpot serverNow db.spots spotId data }
  let mergeLocal := fun (l : List ParkingSpot) =>
    l.map (fun spot =>
      if spot.id = spotId then
        { id := data.id.getD spot.id
          ownerId := data.ownerId.getD spot.ownerId
          ownerName := data.ownerName.getD spot.ownerName
          title := data.title.getD spot.title
          description := data.description.getD spot.description
          location := data.location.getD spot.location
          pricePerHour := data.pricePerHour.getD spot.pricePerHour
          pricePerDay := data.pricePerDay.getD spot.pricePerDay
          imageURLs := data.imageURLs.getD spot.imageURLs
          isAvailable := data.isAvailable.getD spot.isAvailable
          availabilitySchedule := data.availabilitySchedule.getD spot.availabilitySchedule
          spotType := data.spotType.getD spot.spotType
          amenities := data.amenities.getD spot.amenities
          rating := data.rating.getD spot.rating
          reviewCount := data.reviewCount.getD spot.reviewCount
          createdAt := data.createdAt.getD spot.createdAt
          updatedAt := localNow }
      else spot)
  ({ views with spots := mergeLocal views.spots, userSpots := mergeLocal views.userSpots },
    db2)

/-! ### Authentication service and context -/

/-- The auth provider user as delivered by the identity gateway; email
and display name can be null. -/
structure FirebaseUser where
  uid : String
  email : Option String := none
  displayName : Option String := none
  photoURL : Option String := none
deriving DecidableEq, Repr

/-- A stored identity document (the users collection entry, keyed by
uid). -/
structure UserDoc where
  email : String
  name : String
  role : String
  photoURL : Option String := none
  phone : Option String := none
  createdAt : ℚ
  updatedAt : ℚ
deriving DecidableEq, Repr

/-- JS s1 || s2 on a nullable string: null and the empty string are
falsy and fall through to the second operand. -/
def jsOr (o : Option String) (d : String) : String :=
  match o with
  | none => d
  | some s => if s = "" then d else s

/-- JS s || undefined on a nullable string: the empty string collapses
to undefined. -/
def jsOrUndef (o : Option String) : Option String :=
  match o with
  | some s => if s = "" then none else some s
  | none => none

/-- The part of the email before the at sign: the first element of
email.split at the separator, that is, the characters up to the first
at sign. -/
def emailLocalPart (email : String) : String :=
  String.mk (email.toList.takeWhile (fun c => c ≠ Char.ofNat 64))

/-- The users collection, as the map from a uid to the stored document
of that uid (Firestore documents are uniquely keyed). -/
def UsersDB : Type := String → Option UserDoc

/-- getUserData: read the identity document for a uid; null when the
document does not exist (or the read fails). -/
def getUserData (users : UsersDB) (uid : String) : Option UserRec :=
  match users uid with
  | some d =>
      some { uid := uid, email := d.email, name := d.name, role := d.role
             photoURL := d.photoURL, phone := d.phone
             createdAt := d.createdAt, updatedAt := d.updatedAt }
  | none => none

/-- setDoc on the users collection: create or overwrite the document of
a uid. -/
def setUserDoc (users : UsersDB) (uid : String) (d : UserDoc) : UsersDB :=
  fun x => if x = uid then some d else users x

/-- handleAuthError: maps gateway error codes to user facing sentences;
unknown codes pass the raw message through, an empty message becomes the
generic sentence. -/
def handleAuthError (code msg : String) : String :=
  if code = "auth/email-already-in-use" then
    "This email is already registered. Please sign in instead."
  else if code = "auth/invalid-email" then "Please enter a valid email address."
  else if code = "auth/operation-not-allowed" then
    "Email/password accounts are not enabled."
  else if code = "auth/weak-password" then "Password should be at least 6 characters."
  else if code = "auth/user-disabled" then "This account has been disabled."
  else if code = "auth/user-not-found" then "No account found with this email."
  else if code = "auth/wrong-password" then "Incorrect password. Please try again."
  else if code = "auth/invalid-credential" then "Invalid email or password."
  else if code = "auth/too-many-requests" then
    "Too many failed attempts. Please try again later."
  else if code = "auth/network-request-failed" then
    "Network error. Please check your connection."
  else if code = "auth/configuration-not-found" then
    "Sign-in method is disabled. Please enable \"Email/Password\" in Firebase Console."
  else jsOr (some msg) "An error occurred. Please try again."

/-- signIn of the auth service.  The resolution of the remote
email/password handshake is the authResult argument.  When the identity
document is missing, a minimal default record is synthesized (role
"user", name falling back from the display name to the email local
part) and persisted before returning. -/
def signIn (authResult : Except (String × String) FirebaseUser)
    (users : UsersDB) (now : ℚ) (email : String) :
    Except String (UserRec × UsersDB) :=
  match authResult with
  | .error e => .error (handleAuthError e.1 e.2)
  | .ok fu =>
      match getUserData users fu.uid with
      | some u => .ok (u, users)
      | none =>
          let newDoc : UserDoc :=
            { email := jsOr fu.email email
              name := jsOr fu.displayName (emailLocalPart email)
              role := "user"
              createdAt := now
              updatedAt := now }
          .ok ({ uid := fu.uid, email := newDoc.email, name := newDoc.name
                 role := newDoc.role, createdAt := now, updatedAt := now },
               setUserDoc users fu.uid newDoc)

/-- firebaseSignOut of the auth service: forwards the gateway call,
mapping a failure through handleAuthError. -/
def firebaseSignOut (remote : Except (String × String) Unit) : Except String Unit :=
  match remote with
  | .ok _ => .ok ()
  | .error e => .error (handleAuthError e.1 e.2)

/-- Local state of the auth provider. -/
structure AuthState where
  user : Option UserRec
  isLoading : Bool
deriving DecidableEq, Repr

/-- signOut of the auth context: sets the loading flag, awaits the
remote sign out inside try..finally, clears the user only after the
await succeeds, and always clears the loading flag; a remote failure
propagates to the caller. -/
def signOut (remote : Except (String × String) Unit) (st : AuthState) :
    AuthState × Option String :=
  let st1 : AuthState := { st with isLoading := true }
  match firebaseSignOut remote with
  | .ok _ => ({ st1 with user := none, isLoading := false }, none)
  | .error e => ({ st1 with isLoading := false }, some e)

/-! ### Device location flow -/

/-- A reverse geocoding result entry. -/
structure GeoAddress where
  streetNumber : Option String := none
  street : Option String := none
  city : Option String := none
  region : Option String := none
  postalCode : Option String := none
deriving DecidableEq, Repr

/-- A device coordinate reading. -/
structure Coords where
  latitude : ℚ
  longitude : ℚ
deriving DecidableEq, Repr

/-- The device side outcomes one run of getCurrentLocation observes:
the current permission state, the outcome of a permission request, the
live position read (bounded by the 10 second timeout; a timeout is a
failure), the cached last known position, and the reverse geocoding
outcome. -/
structure Device where
  permStatus : String
  canAskAgain : Bool
  requestGrant : Bool
  livePosition : Except String Coords
  lastKnown : Option Coords
  geocode : Except String (Option GeoAddress)
deriving Repr

/-- The location built from a device position before geocoding: the
coordinates with every address field empty. -/
def barePoint (p : Coords) : Location :=
  { latitude := p.latitude, longitude := p.longitude,
    address := none, city := none, state := none, zipCode := none }

/-- Result of one run of getCurrentLocation: the returned value, the
stored session location, the error message and the loading flag. -/
structure LocOutcome where
  returned : Option Location
  userLocation : Option Location
  error : Option String
  isLoading : Bool
deriving DecidableEq, Repr

/-- [streetNumber, street].filter(Boolean).join(" "). -/
def joinAddressParts (parts : List (Option String)) : String :=
  String.intercalate " " ((parts.filterMap id).filter (fun s => s ≠ ""))

/-- The body of getCurrentLocation after the permission gate: live read
with fallback to the cached position, then best effort reverse
geocoding that never fails the operation. -/
def readPosition (dev : Device) (prev : Option Location) : LocOutcome :=
  let posQ : Option Coords :=
    match dev.livePosition with
    | .ok p => some p
    | .error _ => dev.lastKnown
  match posQ with
  | none =>
      { returned := none, userLocation := prev
        error := some "Unable to retrieve location.", isLoading := false }
  | some p =>
      let base : Location := { latitude := p.latitude, longitude := p.longitude }
      let loc : Location :=
        match dev.geocode with
        | .ok (some a) =>
            { base with
              address := some (joinAddressParts [a.streetNumber, a.street])
              city := jsOrUndef a.city
              state := jsOrUndef a.region
              zipCode := jsOrUndef a.postalCode }
        | .ok none => base
        | .error _ => base
      { returned := some loc, userLocation := some loc, error := none, isLoading := false }

/-- getCurrentLocation of the location context: permission gate (with a
single request when asking is still allowed, and a distinct message when
the OS forbids asking again), then the position read with fallback and
non fatal geocoding. -/
def getCurrentLocation (dev : Device) (prev : Option Location) : LocOutcome :=
  if dev.permStatus = "granted" then readPosition dev prev
  else if dev.canAskAgain then
    if dev.requestGrant then readPosition dev prev
    else
      { returned := none, userLocation := prev
        error := some "Location permission not granted", isLoading := false }
  else
    { returned := none, userLocation := prev
      error := some "Location permission denied in settings", isLoading := false }

/-! ### Concrete fixtures used by the concrete instances below -/

/-- A concrete coordinate-only location at the origin of the grid. -/
def sampleLocation : Location := { latitude := 0, longitude := 0 }

/-- A concrete listing. -/
def sampleSpot : ParkingSpot :=
  { id := "s1", ownerId := "o1", ownerName := "Owner", title := "Spot"
    description := "Desc", location := sampleLocation, pricePerHour := 1
    imageURLs := [], isAvailable := true, spotType := "driveway"
    amenities := [], createdAt := 0, updatedAt := 0 }

/-- The stored document of the concrete listing. -/
def sampleSpotDoc : SpotDoc :=
  { ownerId := "o1", ownerName := "Owner", title := "Spot"
    description := "Desc", location := sampleLocation, pricePerHour := 1
    imageURLs := [], isAvailable := true, spotType := "driveway"
    amenities := [], createdAt := 0, updatedAt := 0 }

/-- A concrete raw snapshot document with the defaultable fields absent. -/
def sampleDocData : DocData :=
  { ownerId := "o1", ownerName := "Owner", title := "Spot"
    description := "Desc", location := sampleLocation, pricePerHour := 1
    spotType := "driveway", createdAt := some 3, updatedAt := some 3 }

/-- A concrete identity record. -/
def sampleUser : UserRec :=
  { uid := "u1", email := "a@b.com", name := "Ann", role := "user"
    createdAt := 0, updatedAt := 0 }

/-- The empty users collection. -/
def emptyUsers : UsersDB := fun _ => none

/-- A concrete device: permission granted, a live position at latitude
1 and longitude 2, and a failing reverse geocoder. -/
def sampleDevice : Device :=
  { permStatus := "granted", canAskAgain := true, requestGrant := false,
    livePosition := Except.ok { latitude := 1, longitude := 2 },
    lastKnown := none,
    geocode := Except.error "fail" }

/-- A listing located exactly at the search origin. -/
def spotA : ParkingSpot := { sampleSpot with id := "A" }

/-- A listing one tenth of a degree of longitude east of the origin
(about 11.1 km on the equator). -/
def spotB : ParkingSpot :=
  { sampleSpot with id := "B", location := { latitude := 0, longitude := 1 / 10 } }

/-- The concrete search origin. -/
def originLoc : Location := { latitude := 0, longitude := 0 }

/-- A listing priced at 12.50 per hour, located at the search origin. -/
def spot1250 : ParkingSpot := { sampleSpot with pricePerHour := 25 / 2 }

end ParkSpot

namespace ParkSpot

theorem atan2_zero_one : atan2 0 1 = 0 := by
  unfold atan2
  norm_num

/-- The Haversine distance is symmetric in its two endpoints. -/
theorem calculateDistance_comm (lat1 lon1 lat2 lon2 : ℝ) :
    calculateDistance lat1 lon1 lat2 lon2 = calculateDistance lat2 lon2 lat1 lon1 := by
  simp only [calculateDistance, toRad]
  have h1 : (lat2 - lat1) * (Real.pi / 180) / 2 = -((lat1 - lat2) * (Real.pi / 180) / 2) := by
    ring
  have h2 : (lon2 - lon1) * (Real.pi / 180) / 2 = -((lon1 - lon2) * (Real.pi / 180) / 2) := by
    ring
  rw [h1, h2, Real.sin_neg, Real.sin_neg]
  ring_nf

/-- The Haversine distance from a point to itself is zero. -/
theorem calculateDistance_self (lat lon : ℝ) :
    calculateDistance lat lon lat lon = 0 := by
  simp only [calculateDistance, toRad]
  have h : (lat - lat) * (Real.pi / 180) / 2 = 0 := by ring
  have h2 : (lon - lon) * (Real.pi / 180) / 2 = 0 := by ring
  rw [h, h2, Real.sin_zero]
  norm_num [atan2_zero_one]

theorem atan2_sin_cos {θ : ℝ} (h0 : 0 ≤ θ) (h1 : θ < Real.pi / 2) :
    atan2 (Real.sin θ) (Real.cos θ) = θ := by
  have hc : 0 < Real.cos θ := by
    apply Real.cos_pos_of_mem_Ioo
    constructor
    · linarith [Real.pi_pos]
    · exact h1
  unfold atan2
  rw [if_pos hc, ← Real.tan_eq_sin_div_cos]
  exact Real.arctan_tan (by linarith [Real.pi_pos]) h1

/-- On the equator the Haversine formula reduces to arc length: moving
lonD degrees of longitude from the origin gives 6371 times the radian
measure of lonD, as long as half of that measure stays in the principal
quadrant. -/
theorem calculateDistance_equator (lonD : ℝ) (h0 : 0 ≤ lonD)
    (h1 : lonD * (Real.pi / 180) / 2 < Real.pi / 2) :
    calculateDistance 0 0 0 lonD = 6371 * (lonD * (Real.pi / 180)) := by
  simp only [calculateDistance, toRad]
  have hz : (0 - 0 : ℝ) * (Real.pi / 180) / 2 = 0 := by ring
  have hl : (lonD - 0 : ℝ) * (Real.pi / 180) / 2 = lonD * (Real.pi / 180) / 2 := by ring
  have hz2 : (0 : ℝ) * (Real.pi / 180) = 0 := by ring
  rw [hz, hl, hz2, Real.sin_zero, Real.cos_zero]
  set θ := lonD * (Real.pi / 180) / 2 with hθ
  have hθ0 : 0 ≤ θ := by
    have := Real.pi_pos
    positivity
  have ha : (0 : ℝ) * 0 + 1 * 1 * (Real.sin θ * Real.sin θ) = Real.sin θ ^ 2 := by ring
  rw [ha]
  have hs0 : 0 ≤ Real.sin θ := by
    apply Real.sin_nonneg_of_nonneg_of_le_pi hθ0
    linarith [Real.pi_pos]
  have hsq : Real.sqrt (Real.sin θ ^ 2) = Real.sin θ := Real.sqrt_sq hs0
  have hone : (1 : ℝ) - Real.sin θ ^ 2 = Real.cos θ ^ 2 := by
    have := Real.sin_sq_add_cos_sq θ
    linarith
  have hc0 : 0 ≤ Real.cos θ := by
    have hp : 0 < Real.cos θ := by
      apply Real.cos_pos_of_mem_Ioo
      constructor
      · linarith [Real.pi_pos]
      · exact h1
    linarith
  have hcq : Real.sqrt (1 - Real.sin θ ^ 2) = Real.cos θ := by
    rw [hone]
    exact Real.sqrt_sq hc0
  rw [hsq, hcq, atan2_sin_cos hθ0 h1]
  ring

/-- The concrete distance used by the counterexample listing: a tenth of
a degree of longitude on the equator is 6371 pi / 1800 km. -/
theorem calculateDistance_tenth :
    calculateDistance 0 0 0 (1 / 10) = 6371 * (Real.pi / 1800) := by
  rw [calculateDistance_equator (1 / 10) (by norm_num) (by nlinarith [Real.pi_pos])]
  ring

theorem calculateDistance_tenth_le : calculateDistance 0 0 0 (1 / 10) ≤ 25 := by
  rw [calculateDistance_tenth]
  nlinarith [Real.pi_le_four]

theorem calculateDistance_tenth_pos : 0 < calculateDistance 0 0 0 (1 / 10) := by
  rw [calculateDistance_tenth]
  positivity

/-! ### Generic helpers about the stable sort -/

theorem pairwise_of_total {α : Type} {r : α → α → Prop} (h : ∀ a b, r a b) :
    ∀ l : List α, l.Pairwise r
  | [] => List.Pairwise.nil
  | a :: l => List.Pairwise.cons (fun b _ => h a b) (pairwise_of_total h l)

theorem mergeSort_pair {α : Type} (le : α → α → Bool) (a b : α) :
    [a, b].mergeSort le = if le a b then [a, b] else [b, a] := by
  by_cases h : le a b <;> simp [List.mergeSort, List.merge, h]

/-- The relation of the distance comparator with a known origin is
transitive. -/
theorem sortLE_distance_trans (u : Location) (a b c : ParkingSpot)
    (hab : sortLE SortKey.distance (some u) a b = true)
    (hbc : sortLE SortKey.distance (some u) b c = true) :
    sortLE SortKey.distance (some u) a c = true := by
  simp only [sortLE, decide_eq_true_eq] at hab hbc ⊢
  exact le_trans hab hbc

/-- The relation of the distance comparator with a known origin is
total. -/
theorem sortLE_distance_total (u : Location) (a b : ParkingSpot) :
    (sortLE SortKey.distance (some u) a b || sortLE SortKey.distance (some u) b a) = true := by
  simp only [sortLE, Bool.or_eq_true, decide_eq_true_eq]
  exact le_total _ _

/-- Membership in the price filter stage: kept exactly when the price is
at most the ceiling. -/
theorem mem_priceFilter (P : ℚ) (l : List ParkingSpot) (s : ParkingSpot) :
    s ∈ priceFilter P l ↔ s ∈ l ∧ s.pricePerHour ≤ P := by
  simp [priceFilter, List.mem_filter]

/-- Membership in the distance filter stage with a known origin. -/
theorem mem_distanceFilter_some (u : Location) (dmax : ℚ) (l : List ParkingSpot)
    (s : ParkingSpot) :
    s ∈ distanceFilter (some u) dmax l ↔
      s ∈ l ∧
        calculateDistance (u.latitude : ℝ) (u.longitude : ℝ)
          (s.location.latitude : ℝ) (s.location.longitude : ℝ) ≤ (dmax : ℝ) := by
  simp [distanceFilter, contextCalcDistance, List.mem_filter]

/-! ### Claim theorems -/

/-- Claim C9: for all pairs of coordinates a and b, distanceKm(a, b)
equals distanceKm(b, a), and distanceKm(a, a) equals 0. -/
theorem claim_C9_distance_symm_self :
    (∀ lat1 lon1 lat2 lon2 : ℝ,
      calculateDistance lat1 lon1 lat2 lon2 = calculateDistance lat2 lon2 lat1 lon1) ∧
    (∀ lat lon : ℝ, calculateDistance lat lon lat lon = 0) :=
  ⟨calculateDistance_comm, calculateDistance_self⟩

/-- Claim C1 (amended): deleteSpot removes the listing from the
persistence gateway and then from both local views (allAvailable and
mine); it does not issue any cleanup of the stored images of the
listing (the best effort deleteParkingSpotImages helper exists in the
storage service but is never invoked by the delete flow, so the only
gateway call issued is the document deletion and the stored images are
untouched); a gateway failure surfaces to the caller with the views
unchanged apart from the recorded error message. -/
theorem claim_C1_deleteSpot :
    ∀ (views : SpotsViews) (db : RemoteDB) (spotId : String),
      ((deleteSpot true views db spotId).db.spots
          = db.spots.filter (fun kd => kd.1 ≠ spotId)) ∧
      ((deleteSpot true views db spotId).views.spots
          = views.spots.filter (fun s => s.id ≠ spotId)) ∧
      ((deleteSpot true views db spotId).views.userSpots
          = views.userSpots.filter (fun s => s.id ≠ spotId)) ∧
      (∀ remoteOk : Bool,
        (deleteSpot remoteOk views db spotId).trace = [Effect.firestoreDelete spotId]) ∧
      (∀ remoteOk : Bool,
        (deleteSpot remoteOk views db spotId).db.images = db.images) ∧
      ((deleteSpot false views db spotId).views.spots = views.spots) ∧
      ((deleteSpot false views db spotId).views.userSpots = views.userSpots) ∧
      ((deleteSpot false views db spotId).thrown
          = some "Failed to delete parking spot") := by
  intro views db spotId
  refine ⟨rfl, rfl, rfl, ?_, ?_, rfl, rfl, rfl⟩
  · intro remoteOk
    cases remoteOk <;> rfl
  · intro remoteOk
    cases remoteOk <;> rfl

/-- Claim C1 counterexample: on a concrete state holding one stored
image for the listing being deleted, the delete flow issues no storage
cleanup call and the stored images survive the delete, refuting the
claimed best effort image cleanup. -/
theorem claim_C1_counterexample :
    Effect.storageDelete "s1" ∉
      (deleteSpot true
        { spots := [sampleSpot], userSpots := [sampleSpot] }
        { spots := [("s1", sampleSpotDoc)], images := [("s1", ["img1.jpg"])] }
        "s1").trace ∧
    (deleteSpot true
        { spots := [sampleSpot], userSpots := [sampleSpot] }
        { spots := [("s1", sampleSpotDoc)], images := [("s1", ["img1.jpg"])] }
        "s1").db.images = [("s1", ["img1.jpg"])] := by
  constructor
  · decide
  · rfl

/-- Claim C2 (amended): signOut clears the local user only when the
remote sign out succeeds; when the remote call fails the user is left
in place and the mapped error propagates to the caller; the loading
flag is cleared in every case. -/
theorem claim_C2_signOut :
    ∀ (st : AuthState) (c m : String),
      ((signOut (Except.ok ()) st).1.user = none) ∧
      ((signOut (Except.ok ()) st).1.isLoading = false) ∧
      ((signOut (Except.ok ()) st).2 = none) ∧
      ((signOut (Except.error (c, m)) st).1.user = st.user) ∧
      ((signOut (Except.error (c, m)) st).1.isLoading = false) ∧
      ((signOut (Except.error (c, m)) st).2 = some (handleAuthError c m)) := by
  intro st c m
  exact ⟨rfl, rfl, rfl, rfl, rfl, rfl⟩

/-- Claim C2 counterexample: from a signed in state, a failing remote
sign out leaves the local session user set, refuting the claim that the
state is cleared regardless. -/
theorem claim_C2_counterexample :
    ¬ ((signOut (Except.error ("auth/network-request-failed", "boom"))
        { user := some sampleUser, isLoading := false }).1.user = none) := by
  decide

/-- Claim C4 (amended): updateParkingSpot strips id and createdAt from
the partial data before sending it, so an update carrying id, createdAt
and title changes only title and the server stamped updatedAt on the
stored entity, while id (the document key), createdAt and every other
field remain unmodified. -/
theorem claim_C4_updateParkingSpot :
    ∀ (serverNow : ℚ) (data : SpotPatch),
      ((updatePayload serverNow data).id = none ∧
        (updatePayload serverNow data).createdAt = none) ∧
      (∀ (d : SpotDoc) (i t : String) (x : ℚ),
        applyPatch d
            (updatePayload serverNow { id := some i, createdAt := some x, title := some t })
          = { d with title := t, updatedAt := serverNow }) ∧
      (∀ (store : List (String × SpotDoc)) (spotId : String),
        (updateParkingSpot serverNow store spotId data).map Prod.fst
          = store.map Prod.fst) := by
  intro serverNow data
  refine ⟨⟨rfl, rfl⟩, fun d i t x => rfl, ?_⟩
  intro store spotId
  induction store with
  | nil => rfl
  | cons kd tl ih =>
      by_cases h : kd.1 = spotId <;> simp [updateParkingSpot, h] at ih ⊢ <;> exact ih

/-- Claim C4 counterexample: updating a stored document whose updatedAt
is 0 with the partial data consisting of id, createdAt and title, at
server time 5, produces a document that differs from the old document
with only the title changed: the updatedAt stamp moved as well, so the
update does not change only title. -/
theorem claim_C4_counterexample :
    applyPatch sampleSpotDoc
        (updatePayload 5 { id := some "other", createdAt := some 7, title := some "New" })
      ≠ { sampleSpotDoc with title := "New" } ∧
    (applyPatch sampleSpotDoc
        (updatePayload 5 { id := some "other", createdAt := some 7, title := some "New" })).updatedAt
      = 5 ∧
    sampleSpotDoc.updatedAt = 0 := by
  refine ⟨?_, rfl, rfl⟩
  decide

/-- Claim C7: a successful email/password sign in always yields an
identity record; when the backend record is absent, signIn synthesizes
and persists a default record with role "user" and with the name
falling back from the display name of the auth provider to the part of
the email before the at sign. -/
theorem claim_C7_signIn :
    ∀ (fu : FirebaseUser) (users : UsersDB) (now : ℚ) (email : String),
      (∃ u users2, signIn (Except.ok fu) users now email = Except.ok (u, users2)) ∧
      (getUserData users fu.uid = none →
        ∃ u users2,
          signIn (Except.ok fu) users now email = Except.ok (u, users2) ∧
          u.role = "user" ∧
          u.name = jsOr fu.displayName (emailLocalPart email) ∧
          u.email = jsOr fu.email email ∧
          getUserData users2 fu.uid = some u) := by
  intro fu users now email
  constructor
  · cases h : getUserData users fu.uid with
    | some u => exact ⟨u, users, by simp [signIn, h]⟩
    | none =>
        refine ⟨(⟨fu.uid, jsOr fu.email email, jsOr fu.displayName (emailLocalPart email),
            "user", none, none, now, now⟩ : UserRec),
          setUserDoc users fu.uid
            (⟨jsOr fu.email email, jsOr fu.displayName (emailLocalPart email),
              "user", none, none, now, now⟩ : UserDoc), ?_⟩
        simp [signIn, h]
  · intro h
    refine ⟨(⟨fu.uid, jsOr fu.email email, jsOr fu.displayName (emailLocalPart email),
        "user", none, none, now, now⟩ : UserRec),
      setUserDoc users fu.uid
        (⟨jsOr fu.email email, jsOr fu.displayName (emailLocalPart email),
          "user", none, none, now, now⟩ : UserDoc),
      ?_, rfl, rfl, rfl, ?_⟩
    · simp [signIn, h]
    · simp [getUserData, setUserDoc]

/-- Claim C7 witness: a concrete first sign in with an empty users
collection, no display name and email a@b.com yields a persisted record
with role "user" and the name falling back to the local part a. -/
theorem claim_C7_signIn_witness :
    getUserData emptyUsers "u1" = none ∧
    emailLocalPart "a@b.com" = "a" ∧
    (∃ u users2,
      signIn (Except.ok { uid := "u1", email := some "a@b.com", displayName := none })
          emptyUsers 0 "a@b.com" = Except.ok (u, users2) ∧
      u.role = "user" ∧
      u.name = jsOr none (emailLocalPart "a@b.com") ∧
      u.email = jsOr (some "a@b.com") "a@b.com" ∧
      getUserData users2 "u1" = some u) := by
  refine ⟨rfl, by decide, ?_⟩
  exact (claim_C7_signIn { uid := "u1", email := some "a@b.com", displayName := none }
    emptyUsers 0 "a@b.com").2 rfl

/-- Claim C8: whenever the permission gate passes and a position is
obtained (live, or from the cached fallback), a failing reverse
geocoding step does not fail getCurrentLocation: the coordinate point
is stored and returned with the address, city, state and postal fields
left empty. -/
theorem claim_C8_geocode_nonfatal :
    ∀ (dev : Device) (prev : Option Location) (p : Coords) (g : String),
      (dev.permStatus = "granted" ∨ (dev.canAskAgain = true ∧ dev.requestGrant = true)) →
      (dev.livePosition = Except.ok p ∨
        ((∃ e, dev.livePosition = Except.error e) ∧ dev.lastKnown = some p)) →
      dev.geocode = Except.error g →
      getCurrentLocation dev prev =
        { returned := some (barePoint p), userLocation := some (barePoint p),
          error := none, isLoading := false } := by
  intro dev prev p g hperm hpos hgeo
  have hread : readPosition dev prev =
      { returned := some (barePoint p), userLocation := some (barePoint p),
        error := none, isLoading := false } := by
    rcases hpos with h | ⟨⟨e, he⟩, hl⟩
    · simp [readPosition, h, hgeo, barePoint]
    · simp [readPosition, he, hl, hgeo, barePoint]
  rcases hperm with h | ⟨h1, h2⟩
  · simp [getCurrentLocation, h, hread]
  · by_cases hg : dev.permStatus = "granted"
    · simp [getCurrentLocation, hg, hread]
    · simp [getCurrentLocation, hg, h1, h2, hread]

/-- Claim C8 witness: a concrete device with permission granted, a live
position at latitude 1 and longitude 2 and a failing geocoder still
returns and stores the bare point. -/
theorem claim_C8_geocode_nonfatal_witness :
    sampleDevice.geocode = Except.error "fail" ∧
    getCurrentLocation sampleDevice none =
      { returned := some (barePoint { latitude := 1, longitude := 2 }),
        userLocation := some (barePoint { latitude := 1, longitude := 2 }),
        error := none, isLoading := false } :=
  ⟨rfl,
    claim_C8_geocode_nonfatal sampleDevice none { latitude := 1, longitude := 2 } "fail"
      (Or.inl rfl) (Or.inl rfl) rfl⟩

/-- Claim C10: a remote listing document whose isAvailable field is
absent is defaulted to available during conversion and therefore
included in the derived allAvailable view, and an absent imageURLs
field becomes the empty list. -/
theorem claim_C10_convert_defaults :
    ∀ (now : ℚ) (docs : List (String × DocData)) (docId : String) (d : DocData),
      (docId, d) ∈ docs →
      d.isAvailable = none →
      ((convertDocToSpot now docId d).isAvailable = true ∧
        convertDocToSpot now docId d ∈ subscribeToSpots now docs ∧
        (d.imageURLs = none → (convertDocToSpot now docId d).imageURLs = [])) := by
  intro now docs docId d hmem hna
  have havail : (convertDocToSpot now docId d).isAvailable = true := by
    simp [convertDocToSpot, hna]
  refine ⟨havail, ?_, ?_⟩
  · unfold subscribeToSpots
    rw [(List.mergeSort_perm _ _).mem_iff, List.mem_filter]
    refine ⟨List.mem_map.mpr ⟨(docId, d), hmem, rfl⟩, by simp [havail]⟩
  · intro hi
    simp [convertDocToSpot, hi]

/-- Claim C10 witness: a concrete snapshot holding one document with
isAvailable and imageURLs absent: the converted spot is available, is a
member of the derived view, and carries the empty image list. -/
theorem claim_C10_convert_defaults_witness :
    ("s1", sampleDocData) ∈ [("s1", sampleDocData)] ∧
    sampleDocData.isAvailable = none ∧
    convertDocToSpot 0 "s1" sampleDocData ∈ subscribeToSpots 0 [("s1", sampleDocData)] ∧
    (convertDocToSpot 0 "s1" sampleDocData).isAvailable = true ∧
    (convertDocToSpot 0 "s1" sampleDocData).imageURLs = [] := by
  have h := claim_C10_convert_defaults 0 [("s1", sampleDocData)] "s1" sampleDocData
    (by simp) rfl
  exact ⟨by simp, rfl, h.2.1, h.1, h.2.2 rfl⟩

/-- With an empty query the text stage is a pass through. -/
theorem textFilter_empty (l : List ParkingSpot) : textFilter "" l = l := rfl

/-- With the sentinel "all" selected the type stage is a pass through. -/
theorem typeFilter_all (types : List String) (h : types.contains "all" = true)
    (l : List ParkingSpot) : typeFilter types l = l := by
  unfold typeFilter
  rw [if_neg (not_not_intro h)]

/-- Claim C5: with an unknown origin the distance stage of the pipeline
is skipped entirely: the result does not depend on the distance ceiling,
the distance stage is the identity, and the final output is a
permutation of the result of the other three stages (so no listing is
ever removed for distance reasons and the result is a pass through of
the prior stages, not an empty result). -/
theorem claim_C5_distance_skipped_when_origin_unknown :
    ∀ (spots : List ParkingSpot) (q : String) (p d1 d2 : ℚ)
      (types : List String) (sb : SortKey),
      (filteredSpots spots q p d1 types sb none
        = filteredSpots spots q p d2 types sb none) ∧
      (distanceFilter none d1 (priceFilter p (textFilter q spots))
        = priceFilter p (textFilter q spots)) ∧
      (filteredSpots spots q p d1 types sb none).Perm
        (typeFilter types (priceFilter p (textFilter q spots))) := by
  intro spots q p d1 d2 types sb
  exact ⟨rfl, rfl, List.mergeSort_perm _ _⟩

/-- Claim C6: the price stage keeps a listing exactly when its hourly
price is at most the ceiling (inclusive boundary), and concretely a
listing priced 12.50, sitting at the known origin, is included by the
full pipeline at ceiling 12.50 and distance ceiling 100000, and excluded
at ceiling 12.49. -/
theorem claim_C6_price_boundary :
    (∀ (P : ℚ) (l : List ParkingSpot) (s : ParkingSpot),
      s ∈ priceFilter P l ↔ s ∈ l ∧ s.pricePerHour ≤ P) ∧
    spot1250 ∈
      filteredSpots [spot1250] "" (25 / 2) 100000 ["all"] SortKey.distance
        (some originLoc) ∧
    spot1250 ∉
      filteredSpots [spot1250] "" (1249 / 100) 100000 ["all"] SortKey.distance
        (some originLoc) := by
  have hdist : calculateDistance ((0 : ℚ) : ℝ) ((0 : ℚ) : ℝ) ((0 : ℚ) : ℝ) ((0 : ℚ) : ℝ)
      ≤ ((100000 : ℚ) : ℝ) := by
    push_cast
    rw [calculateDistance_self]
    norm_num
  refine ⟨mem_priceFilter, ?_, ?_⟩
  · unfold filteredSpots
    rw [(List.mergeSort_perm _ _).mem_iff, textFilter_empty, typeFilter_all _ (by decide) _,
      mem_distanceFilter_some, mem_priceFilter]
    refine ⟨⟨List.mem_singleton.mpr rfl, by norm_num [spot1250, sampleSpot]⟩, ?_⟩
    simpa [spot1250, sampleSpot, sampleLocation, originLoc] using hdist
  · unfold filteredSpots
    rw [(List.mergeSort_perm _ _).mem_iff, textFilter_empty, typeFilter_all _ (by decide) _,
      mem_distanceFilter_some, mem_priceFilter]
    intro h
    have := h.1.2
    norm_num [spot1250, sampleSpot] at this

/-- Claim C3 (amended): with the distance sort key and a known origin
the output of the pipeline is ordered ascending by the key the code
actually compares, namely distanceKm(origin, listing.location) with a
distance of exactly 0 (and an unknown distance) coerced to plus
infinity; zero distance listings therefore sort last rather than first.
With an unknown origin the sort stage leaves the order of the filtered
input unchanged. -/
theorem claim_C3_distance_sort :
    ∀ (spots : List ParkingSpot) (q : String) (p dmax : ℚ) (types : List String),
      (filteredSpots spots q p dmax types SortKey.distance none
        = typeFilter types (priceFilter p (textFilter q spots))) ∧
      (∀ u : Location,
        (filteredSpots spots q p dmax types SortKey.distance (some u)).Pairwise
          (fun a b => jsDistKey (some u) a ≤ jsDistKey (some u) b)) := by
  intro spots q p dmax types
  constructor
  · unfold filteredSpots
    apply List.mergeSort_of_sorted
    apply pairwise_of_total
    intro a b
    rfl
  · intro u
    have hp := List.sorted_mergeSort
      (fun a b c hab hbc => sortLE_distance_trans u a b c hab hbc)
      (fun a b => sortLE_distance_total u a b)
      (typeFilter types
        (distanceFilter (some u) dmax (priceFilter p (textFilter q spots))))
    unfold filteredSpots
    exact hp.imp (fun h => of_decide_eq_true h)

/-- Claim C3 counterexample: with the origin known at (0, 0), a listing
at the origin itself (distance exactly 0) and a listing 0.1 degrees of
longitude away (about 11.1 km, within the 25 km ceiling), the pipeline
output is not ascending by distanceKm from the origin: the zero distance
listing is falsy in the comparator, becomes Infinity and sorts last. -/
theorem claim_C3_counterexample :
    ¬ (filteredSpots [spotA, spotB] "" 50 25 ["all"] SortKey.distance
        (some originLoc)).Pairwise
        (fun a b =>
          calculateDistance (originLoc.latitude : ℝ) (originLoc.longitude : ℝ)
              (a.location.latitude : ℝ) (a.location.longitude : ℝ)
            ≤ calculateDistance (originLoc.latitude : ℝ) (originLoc.longitude : ℝ)
              (b.location.latitude : ℝ) (b.location.longitude : ℝ)) := by
  have dA : calculateDistance (0 : ℝ) 0 0 0 = 0 := calculateDistance_self 0 0
  have dB : calculateDistance (0 : ℝ) 0 0 ((10 : ℝ)⁻¹) = 6371 * (Real.pi / 1800) := by
    have h10 : ((10 : ℝ)⁻¹) = 1 / 10 := by norm_num
    rw [h10]
    exact calculateDistance_tenth
  have dB_pos : 0 < calculateDistance (0 : ℝ) 0 0 ((10 : ℝ)⁻¹) := by
    rw [dB]
    positivity
  have dB_ne : calculateDistance (0 : ℝ) 0 0 ((10 : ℝ)⁻¹) ≠ 0 := ne_of_gt dB_pos
  have hDB : decide (calculateDistance (0 : ℝ) 0 0 ((10 : ℝ)⁻¹) ≤ (25 : ℝ)) = true := by
    apply decide_eq_true
    rw [dB]
    nlinarith [Real.pi_le_four]
  have hDA : decide (calculateDistance (0 : ℝ) 0 0 0 ≤ (25 : ℝ)) = true := by
    apply decide_eq_true
    rw [dA]
    norm_num
  have hkeyA : jsDistKey (some originLoc) spotA = ⊤ := by
    simp [jsDistKey, contextCalcDistance, spotA, sampleSpot, sampleLocation, originLoc, dA]
  have hkeyB : jsDistKey (some originLoc) spotB
      = ((calculateDistance (0 : ℝ) 0 0 ((10 : ℝ)⁻¹) : ℝ) : EReal) := by
    simp [jsDistKey, contextCalcDistance, spotB, sampleSpot, sampleLocation, originLoc,
      dB_ne]
  have hAB : sortLE SortKey.distance (some originLoc) spotA spotB = false := by
    simp only [sortLE, hkeyA, hkeyB]
    simp only [decide_eq_false_iff_not, top_le_iff]
    exact EReal.coe_ne_top _
  have hD : distanceFilter (some originLoc) 25 [spotA, spotB] = [spotA, spotB] := by
    simp [distanceFilter, contextCalcDistance, spotA, spotB, sampleSpot, sampleLocation,
      originLoc, List.filter, hDA, hDB]
  have hq : (1 : ℚ) ≤ 50 := by norm_num
  have hP : priceFilter 50 [spotA, spotB] = [spotA, spotB] := by
    simp [priceFilter, spotA, spotB, sampleSpot, List.filter, hq]
  have hlist : filteredSpots [spotA, spotB] "" 50 25 ["all"] SortKey.distance
      (some originLoc) = [spotB, spotA] := by
    unfold filteredSpots
    rw [textFilter_empty, hP, hD, typeFilter_all _ (by decide) _, mergeSort_pair, hAB]
    rfl
  intro hpw
  rw [hlist] at hpw
  have h := (List.pairwise_cons.mp hpw).1 spotA (List.mem_singleton.mpr rfl)
  simp only [spotA, spotB, sampleSpot, sampleLocation, originLoc] at h
  push_cast at h
  have h10 : ((10 : ℝ)⁻¹) = 1 / 10 := by norm_num
  rw [calculateDistance_self, ← h10] at h
  exact absurd h (not_le.mpr dB_pos)

end ParkSpot
